import Mathlib

/-!
Verification of the Decryptc asset-analysis front end: a shallow embedding of
the Gemini service module (`analyzeAsset`, its retry loop and error
classification, the input normalizer, base64 encoding) and of the `App`
state controller (`handleFileChange`, `startScan`, `onScanComplete`,
`resetApp`), with theorems checking the documented behaviour.
-/

namespace Decryptc

/-! ## JavaScript value model (for error-shape sniffing) -/

/-- A JavaScript primitive value as it appears in error objects: a number or a
string. `Option JsVal` stands for a possibly-`undefined` attribute. -/
inductive JsVal where
  | num (n : Int)
  | str (s : String)
deriving DecidableEq, Repr

/-- JavaScript truthiness of a possibly-undefined value: `undefined`, `0` and
the empty string are falsy. -/
def truthy : Option JsVal → Bool
  | none => false
  | some (.num n) => !(n == 0)
  | some (.str s) => !(s == "")

/-- The JavaScript `a || b` operator on possibly-undefined values: yields `a`
when `a` is truthy, otherwise `b`. -/
def jsOr (a b : Option JsVal) : Option JsVal :=
  if truthy a then a else b

/-- The observable attributes of an error value caught by `analyzeAsset`'s
retry loop: `error.status`, `error.code`, `error.error.code`,
`error.error.status`, `error.message`, `error.error.message`, and the string
`JSON.stringify(error)` (recorded here as a field, since the classifier only
ever consumes that serialization as an opaque string). -/
structure GenError where
  status : Option JsVal
  code : Option JsVal
  errCode : Option JsVal
  errStatus : Option JsVal
  message : Option JsVal
  errMessage : Option JsVal
  stringified : String
deriving DecidableEq, Repr

/-- An error value carrying only a `message` string, as built by
`new Error(msg)` (whose `JSON.stringify` is the empty object). -/
def simpleError (msg : String) : GenError :=
  { status := none, code := none, errCode := none, errStatus := none,
    message := some (.str msg), errMessage := none, stringified := "\x7b\x7d" }

/-- `error.status || error.code || error?.error?.code || error?.error?.status`
from the catch block of `analyzeAsset`. -/
def errorCode (e : GenError) : Option JsVal :=
  jsOr (jsOr (jsOr e.status e.code) e.errCode) e.errStatus

/-- `error.message || error?.error?.message || JSON.stringify(error)` from the
catch block of `analyzeAsset`. -/
def errorMessage (e : GenError) : Option JsVal :=
  jsOr (jsOr e.message e.errMessage) (some (.str e.stringified))

/-- JavaScript `s.includes(pat)`: case-sensitive substring containment. -/
def strContains (s pat : String) : Bool :=
  decide (pat.toList <:+: s.toList)

/-- The `isRateLimit` classification of `analyzeAsset`'s catch block: the
resolved status/code strictly equals the number `429` or the string
`"RESOURCE_EXHAUSTED"`, or the resolved message is a string containing
`"429"`, `"quota"` or `"RESOURCE_EXHAUSTED"`. -/
def isRateLimit (e : GenError) : Bool :=
  errorCode e == some (.num 429) ||
  errorCode e == some (.str "RESOURCE_EXHAUSTED") ||
  (match errorMessage e with
   | some (.str s) =>
       strContains s "429" || strContains s "quota" ||
       strContains s "RESOURCE_EXHAUSTED"
   | _ => false)

/-! ## JSON values and the parsed report -/

/-- A JSON value as produced by `JSON.parse`. Objects are association lists;
`JSON.parse` output has no duplicate keys (later duplicates overwrite earlier
ones during parsing), so lookup order is immaterial on its output. -/
inductive Json where
  | str (s : String)
  | num (n : Int)
  | bool (b : Bool)
  | null
  | arr (xs : List Json)
  | obj (kvs : List (String × Json))
deriving Repr

/-- Field lookup in a JSON object's association list. -/
def lookupField (k : String) : List (String × Json) → Option Json
  | [] => none
  | (k', v) :: rest => if k' == k then some v else lookupField k rest

/-- JavaScript property access on a parsed JSON value: `none` stands for
`undefined` (property access on a non-object never yields a field here). -/
def jGet (j : Json) (k : String) : Option Json :=
  match j with
  | .obj kvs => lookupField k kvs
  | _ => none

/-- The fields of a value used as a `ForensicReport`. The TypeScript cast
`JSON.parse(textResponse) as ForensicReport` performs no runtime work, so each
field is exactly the property of the parsed JSON value, possibly `undefined`
(`none`). -/
structure ForensicReport where
  case_id : Option Json
  verdict : Option Json
  confidence_score : Option Json
  summary : Option Json
  key_evidence : Option Json
  risk_level : Option Json
  suspicious_urls : Option Json
  probable_original_sources : Option Json
  data_gaps : Option Json
  recommended_actions : Option Json
  engine_scores : Option Json
deriving Repr

/-- Viewing a parsed JSON value through the `ForensicReport` interface: plain
property access on every declared field, no validation, no defaulting. -/
def asForensicReport (j : Json) : ForensicReport :=
  { case_id := jGet j "case_id"
    verdict := jGet j "verdict"
    confidence_score := jGet j "confidence_score"
    summary := jGet j "summary"
    key_evidence := jGet j "key_evidence"
    risk_level := jGet j "risk_level"
    suspicious_urls := jGet j "suspicious_urls"
    probable_original_sources := jGet j "probable_original_sources"
    data_gaps := jGet j "data_gaps"
    recommended_actions := jGet j "recommended_actions"
    engine_scores := jGet j "engine_scores" }

/-- The shape information of the response schema sent with every request:
which properties it declares and which of them it marks required. -/
structure SchemaShape where
  propertyNames : List String
  required : List String
deriving Repr

/-- The `reportSchema` constant of the service module, reduced to its property
and required-field lists. -/
def reportSchema : SchemaShape :=
  { propertyNames :=
      ["case_id", "verdict", "confidence_score", "summary", "key_evidence",
       "risk_level", "suspicious_urls", "probable_original_sources",
       "data_gaps", "recommended_actions", "engine_scores"],
    required := ["case_id", "verdict", "confidence_score", "summary", "risk_level"] }

/-! ## The input normalizer -/

/-- A part of the request payload: either a text part or an inline binary part
carrying a MIME type and base64 data. -/
inductive Part where
  | text (s : String)
  | inlineData (mimeType : String) (data : String)
deriving DecidableEq, Repr

/-- A selected file as the browser hands it over: name, declared MIME type,
byte length, and content bytes. -/
structure FileAsset where
  name : String
  type : String
  size : Nat
  content : List Nat
deriving DecidableEq, Repr

/-- The submitted asset: a URL string or a file. -/
inductive Input where
  | url (s : String)
  | file (f : FileAsset)
deriving DecidableEq, Repr

/-- JavaScript `s.startsWith(pre)`. -/
def strStartsWith (s pre : String) : Bool :=
  pre.toList.isPrefixOf s.toList

/-- JavaScript `s.endsWith(post)`. -/
def strEndsWith (s post : String) : Bool :=
  post.toList.isSuffixOf s.toList

/-- `isSupportedMimeType` from the service module. -/
def isSupportedMimeType (mime : String) : Bool :=
  mime == "application/pdf" ||
  strStartsWith mime "image/" ||
  strStartsWith mime "video/"

/-- The base64 alphabet. -/
def base64Chars : List Char :=
  "ABCDEFGHIJKLMNOPQRSTUVWXYZabcdefghijklmnopqrstuvwxyz0123456789+/".toList

/-- Standard base64 encoding of a byte list, three bytes to four characters,
padded with `=`. -/
def base64EncodeBytes : List Nat → List Char
  | [] => []
  | [b1] =>
      [base64Chars.getD (b1 / 4) 'A',
       base64Chars.getD (b1 % 4 * 16) 'A', '=', '=']
  | [b1, b2] =>
      [base64Chars.getD (b1 / 4) 'A',
       base64Chars.getD (b1 % 4 * 16 + b2 / 16) 'A',
       base64Chars.getD (b2 % 16 * 4) 'A', '=']
  | b1 :: b2 :: b3 :: rest =>
      base64Chars.getD (b1 / 4) 'A' ::
      base64Chars.getD (b1 % 4 * 16 + b2 / 16) 'A' ::
      base64Chars.getD (b2 % 16 * 4 + b3 / 64) 'A' ::
      base64Chars.getD (b3 % 64) 'A' ::
      base64EncodeBytes rest

/-- `fileToBase64` from the service module: reads the file as a data URL and
strips the prefix, leaving the base64 encoding of the file's bytes. -/
def fileToBase64 (f : FileAsset) : String :=
  String.mk (base64EncodeBytes f.content)

/-- The payload-construction section of `analyzeAsset`: classifies the asset
and builds the request parts. `readText` stands for `fileToText` (the
browser's text decoding of the file's bytes), which this embedding takes as a
parameter. -/
def buildParts (readText : List Nat → String) (input : Input) : List Part :=
  match input with
  | .url s =>
      [.text ("Analyze this URL for piracy and authenticity risks: " ++ s ++
        ". \nGenerate a forensic report.")]
  | .file f =>
      if strStartsWith f.type "text/" || strEndsWith f.name ".txt" ||
         strEndsWith f.name ".md" || strEndsWith f.name ".csv" ||
         strEndsWith f.name ".json" then
        [.text ("Analyze this text content for plagiarism and piracy risks:\n\n" ++
          readText f.content)]
      else if isSupportedMimeType f.type then
        [.inlineData f.type (fileToBase64 f),
         .text ("Analyze this " ++ f.type ++
           " asset and generate a forensic piracy report based on simulated reverse search and metadata analysis.")]
      else
        [.text ("Perform a simulated forensic analysis on this file.\n\nFile Name: " ++
          f.name ++ "\nFile Size: " ++ toString f.size ++ " bytes\nFile Type: " ++
          f.type ++
          "\n\nSince direct content analysis is not available for this file type via the current interface, simulate findings based on the metadata and common piracy patterns associated with this file format.")]

/-! ## The report requester (retry loop) -/

/-- The outcome of one `ai.models.generateContent` call, as observed by the
try block: the promise rejects with an error, or resolves with a response
whose `text` may be absent. -/
inductive ApiOutcome where
  | throwErr (e : GenError)
  | reply (text : Option String)

/-- One pass through the try block: a rejection propagates; an absent
response text raises `Error("No response from AI")`; otherwise the text is
parsed as JSON (`parse` stands for `JSON.parse`, whose own failure is an
error caught by the same catch block). -/
def attemptOnce (parse : String → Except GenError Json) :
    ApiOutcome → Except GenError Json
  | .throwErr e => .error e
  | .reply none => .error (simpleError "No response from AI")
  | .reply (some t) => parse t

/-- The terminal result of the retry loop, together with the number of
attempts performed and the sequence of `sleep` durations (in ms) that were
awaited between attempts. `starved` marks exhaustion of the outcome oracle,
never reached when enough outcomes are supplied. -/
inductive LoopResult where
  | success (r : Json) (attemptsMade : Nat) (sleeps : List Nat)
  | failure (e : GenError) (attemptsMade : Nat) (sleeps : List Nat)
  | starved

/-- The `while (true)` retry loop of `analyzeAsset`: `attempts` counts caught
failures, `delay` doubles after each rate-limited retry, and a failure that is
not rate-limited — or a failure once `attempts` has reached `maxAttempts` —
is re-thrown. -/
def analyzeLoop (parse : String → Except GenError Json) (maxAttempts : Nat) :
    List ApiOutcome → Nat → Nat → List Nat → LoopResult
  | [], _, _, _ => .starved
  | o :: rest, attempts, delay, sleeps =>
      match attemptOnce parse o with
      | .ok r => .success r (attempts + 1) sleeps.reverse
      | .error e =>
          if isRateLimit e = true ∧ attempts + 1 < maxAttempts then
            analyzeLoop parse maxAttempts rest (attempts + 1) (delay * 2)
              (delay :: sleeps)
          else .failure e (attempts + 1) sleeps.reverse

/-- `analyzeAsset` from the service module: fails up front when the API key is
missing, otherwise builds the request payload from the input and runs the
retry loop (5 max attempts, initial delay 4000 ms) against the sequence of
call outcomes. Returns the payload alongside the loop's result. -/
def analyzeAsset (readText : List Nat → String)
    (parse : String → Except GenError Json) (apiKey : Option String)
    (input : Input) (outcomes : List ApiOutcome) :
    Except GenError (List Part × LoopResult) :=
  match apiKey with
  | none => .error (simpleError "API_KEY is missing from environment variables")
  | some _ => .ok (buildParts readText input, analyzeLoop parse 5 outcomes 0 4000 [])

/-! ## The application state controller (`App.tsx`) -/

/-- The `AppState` enum. -/
inductive AppState where
  | IDLE
  | SCANNING
  | REPORT_READY
  | ERROR
deriving DecidableEq, Repr

/-- The `InputMode` type: which input tab is active. -/
inductive InputMode where
  | file
  | url
deriving DecidableEq, Repr

/-- The controller's mutable state: the `useState` slots of the `App`
component. -/
structure Model where
  appState : AppState
  inputMode : InputMode
  file : Option FileAsset
  urlInput : String
  report : Option Json
  error : Option String
deriving Repr

/-- The initial component state. -/
def initModel : Model :=
  { appState := .IDLE, inputMode := .file, file := none, urlInput := "",
    report := none, error := none }

/-- `handleFileChange`: takes the selected-file list; an empty selection does
nothing; a file over 50 MiB only triggers an alert and is not stored;
otherwise the file becomes the current asset. -/
def handleFileChange (m : Model) (files : List FileAsset) : Model :=
  match files with
  | [] => m
  | f :: _ =>
      if f.size > 50 * 1024 * 1024 then m
      else { m with file := some f }

/-- The synchronous prefix of `startScan`: with no asset (no file, or empty
URL text, per the active mode) it returns at once; otherwise it enters
`SCANNING` and clears the error slot. Note that it does not clear the report
slot. -/
def startScan (m : Model) : Model :=
  match m.inputMode with
  | .url =>
      if m.urlInput == "" then m
      else { m with appState := .SCANNING, error := none }
  | .file =>
      match m.file with
      | none => m
      | some _ => { m with appState := .SCANNING, error := none }

/-- The resolution continuation of `startScan`'s awaited `analyzeAsset` call:
`setReport(data)` — the report is stored; the app state is not changed
(that is left to the animation-complete signal). -/
def scanResolve (m : Model) (r : Json) : Model :=
  { m with report := some r }

/-- The catch branch of `startScan`: a fixed error message is recorded and
the state moves to `ERROR`. -/
def scanReject (m : Model) : Model :=
  { m with
    error := some "Failed to generate report. Please try again."
    appState := .ERROR }

/-- `onScanComplete`, the animation-complete signal from the presentation
layer: moves to `REPORT_READY` only when a report has been stored; otherwise
does nothing. -/
def onScanComplete (m : Model) : Model :=
  if m.report.isSome then { m with appState := .REPORT_READY } else m

/-- `resetApp`: returns to `IDLE` and clears the file, URL text, report and
error slots. -/
def resetApp (m : Model) : Model :=
  { m with
    appState := .IDLE
    file := none
    urlInput := ""
    report := none
    error := none }

/-- The mode-switch handler of the nav buttons: sets the input mode and
clears the file and URL text. -/
def setMode (m : Model) (mode : InputMode) : Model :=
  { m with inputMode := mode, file := none, urlInput := "" }

/-- The URL text-field change handler. -/
def setUrlInput (m : Model) (s : String) : Model :=
  { m with urlInput := s }

/-- The events the controller reacts to. `scanResolve`/`scanReject` fire when
the in-flight `analyzeAsset` promise settles — also after an intervening
reset, since nothing cancels the request or guards its continuation. -/
inductive Ev where
  | fileChange (files : List FileAsset)
  | urlChange (s : String)
  | modeChange (mode : InputMode)
  | startScan
  | scanResolve (r : Json)
  | scanReject
  | animationComplete
  | reset

/-- One controller step. -/
def step (m : Model) : Ev → Model
  | .fileChange files => handleFileChange m files
  | .urlChange s => setUrlInput m s
  | .modeChange mode => setMode m mode
  | .startScan => startScan m
  | .scanResolve r => scanResolve m r
  | .scanReject => scanReject m
  | .animationComplete => onScanComplete m
  | .reset => resetApp m

/-- Running the controller over a sequence of events. -/
def run (m : Model) (evs : List Ev) : Model :=
  evs.foldl step m

/-! ## Theorems -/

/-- C1: for every request payload (any input, any reader and parser), if the
first 4 attempts fail with rate-limit-classified errors and the 5th attempt
succeeds, the requester performs exactly 5 attempts (any further prepared
outcomes are untouched), sleeps 4000, 8000, 16000 and 32000 ms between the
attempts (delay starting at 4000 ms and doubling after each retry), and
returns the report parsed from the 5th response. -/
theorem C1_fiveAttemptsWithBackoff (readText : List Nat → String)
    (parse : String → Except GenError Json) (k : String) (input : Input)
    (e1 e2 e3 e4 : GenError) (t : String) (r : Json) (rest : List ApiOutcome)
    (h1 : isRateLimit e1 = true) (h2 : isRateLimit e2 = true)
    (h3 : isRateLimit e3 = true) (h4 : isRateLimit e4 = true)
    (hp : parse t = .ok r) :
    analyzeAsset readText parse (some k) input
      (.throwErr e1 :: .throwErr e2 :: .throwErr e3 :: .throwErr e4 ::
        .reply (some t) :: rest) =
      .ok (buildParts readText input,
        .success r 5 [4000, 8000, 16000, 32000]) := by
  simp [analyzeAsset, analyzeLoop, attemptOnce, h1, h2, h3, h4, hp]

/-- C1 witness: four concrete quota errors then a successful parse. -/
theorem C1_fiveAttemptsWithBackoff_witness :
    analyzeAsset (fun _ => "") (fun s => .ok (.str s)) (some "key") (.url "u")
      [.throwErr (simpleError "quota hit 1"), .throwErr (simpleError "quota hit 2"),
       .throwErr (simpleError "quota hit 3"), .throwErr (simpleError "quota hit 4"),
       .reply (some "REPORT")] =
      .ok (buildParts (fun _ => "") (.url "u"),
        .success (.str "REPORT") 5 [4000, 8000, 16000, 32000]) :=
  C1_fiveAttemptsWithBackoff (fun _ => "") (fun s => .ok (.str s)) "key" (.url "u")
    _ _ _ _ "REPORT" (.str "REPORT") [] (by rfl) (by rfl) (by rfl) (by rfl) rfl

/-- C2: a failure classified as non-rate-limited propagates at once as a
fatal failure after 1 attempt with no sleeps, and 5 consecutive
rate-limit-classified failures end in a fatal failure after the 5th attempt
with no further retry (later prepared outcomes untouched); in neither case is
a `success` result produced. -/
theorem C2_fatalAndExhaustionPropagate (readText : List Nat → String)
    (parse : String → Except GenError Json) (k : String) (input : Input)
    (e f1 f2 f3 f4 f5 : GenError) (rest rest' : List ApiOutcome) :
    (isRateLimit e = false →
      analyzeAsset readText parse (some k) input (.throwErr e :: rest) =
        .ok (buildParts readText input, .failure e 1 [])) ∧
    (isRateLimit f1 = true → isRateLimit f2 = true → isRateLimit f3 = true →
      isRateLimit f4 = true → isRateLimit f5 = true →
      analyzeAsset readText parse (some k) input
        (.throwErr f1 :: .throwErr f2 :: .throwErr f3 :: .throwErr f4 ::
          .throwErr f5 :: rest') =
        .ok (buildParts readText input,
          .failure f5 5 [4000, 8000, 16000, 32000])) := by
  constructor
  · intro he
    simp [analyzeAsset, analyzeLoop, attemptOnce, he]
  · intro h1 h2 h3 h4 h5
    simp [analyzeAsset, analyzeLoop, attemptOnce, h1, h2, h3, h4]

/-- C2 witness: a concrete fatal error and five concrete quota errors. -/
theorem C2_fatalAndExhaustionPropagate_witness :
    (analyzeAsset (fun _ => "") (fun s => .ok (.str s)) (some "key") (.url "u")
      [.throwErr (simpleError "boom")] =
      .ok (buildParts (fun _ => "") (.url "u"),
        .failure (simpleError "boom") 1 [])) ∧
    (analyzeAsset (fun _ => "") (fun s => .ok (.str s)) (some "key") (.url "u")
      [.throwErr (simpleError "quota 1"), .throwErr (simpleError "quota 2"),
       .throwErr (simpleError "quota 3"), .throwErr (simpleError "quota 4"),
       .throwErr (simpleError "quota 5")] =
      .ok (buildParts (fun _ => "") (.url "u"),
        .failure (simpleError "quota 5") 5 [4000, 8000, 16000, 32000])) :=
  ⟨(C2_fatalAndExhaustionPropagate (fun _ => "") (fun s => .ok (.str s)) "key"
      (.url "u") (simpleError "boom") (simpleError "a") (simpleError "a")
      (simpleError "a") (simpleError "a") (simpleError "a") [] []).1 (by rfl),
   (C2_fatalAndExhaustionPropagate (fun _ => "") (fun s => .ok (.str s)) "key"
      (.url "u") (simpleError "a") (simpleError "quota 1") (simpleError "quota 2")
      (simpleError "quota 3") (simpleError "quota 4") (simpleError "quota 5")
      [] []).2 (by rfl) (by rfl) (by rfl) (by rfl) (by rfl)⟩

/-- C3: an error is classified rate-limited if and only if its resolved
status/code (the `status`/`code`/nested-`code`/nested-`status` fallback chain)
strictly equals the number 429 or the string "RESOURCE_EXHAUSTED", or its
resolved message text (`message`/nested-`message`/stringification fallback
chain) is a string containing "429", "quota" or "RESOURCE_EXHAUSTED" as a
case-sensitive substring; every other error is not rate-limited (fatal). -/
theorem C3_rateLimitClassification (e : GenError) :
    isRateLimit e = true ↔
      errorCode e = some (.num 429) ∨
      errorCode e = some (.str "RESOURCE_EXHAUSTED") ∨
      ∃ s : String, errorMessage e = some (.str s) ∧
        ("429".toList <:+: s.toList ∨ "quota".toList <:+: s.toList ∨
         "RESOURCE_EXHAUSTED".toList <:+: s.toList) := by
  cases hm : errorMessage e with
  | none =>
      simp [isRateLimit, hm]
  | some v =>
      cases v with
      | num n => simp [isRateLimit, hm]
      | str s => simp [isRateLimit, strContains, hm, or_assoc]

/-- C4: from the `SCANNING` state, a requester success followed by the
animation-complete signal moves the state to `REPORT_READY` holding exactly
the received report; a requester (or normalizer) failure while `SCANNING`
moves the state to `ERROR` and records an error message, regardless of
animation state (the failure conjunct holds for the scanning state as is,
whether or not `onScanComplete` has fired). -/
theorem C4_scanningSuccessAndFailure (m : Model) (r : Json)
    (_hscan : m.appState = .SCANNING) :
    (onScanComplete (scanResolve m r)).appState = .REPORT_READY ∧
    (onScanComplete (scanResolve m r)).report = some r ∧
    (scanReject m).appState = .ERROR ∧
    (scanReject m).error = some "Failed to generate report. Please try again." := by
  refine ⟨?_, ?_, rfl, rfl⟩ <;> simp [onScanComplete, scanResolve]

/-- C4 witness: a concrete scanning state reached from the initial state. -/
theorem C4_scanningSuccessAndFailure_witness :
    (onScanComplete (scanResolve
        (startScan (handleFileChange initModel [⟨"a.png", "image/png", 3, [77]⟩]))
        (.str "rep"))).appState = .REPORT_READY ∧
    (onScanComplete (scanResolve
        (startScan (handleFileChange initModel [⟨"a.png", "image/png", 3, [77]⟩]))
        (.str "rep"))).report = some (.str "rep") ∧
    (scanReject
        (startScan (handleFileChange initModel [⟨"a.png", "image/png", 3, [77]⟩]))).appState = .ERROR ∧
    (scanReject
        (startScan (handleFileChange initModel [⟨"a.png", "image/png", 3, [77]⟩]))).error =
      some "Failed to generate report. Please try again." :=
  C4_scanningSuccessAndFailure _ (.str "rep") rfl

/-- C5 counterexample: a file whose MIME type is `application/pdf` but whose
name ends in `.txt` is routed to the text branch, producing a single text
part — not the two parts (binary + instruction) the claim asserts for every
file with a supported binary MIME type. -/
theorem C5_cex_textLikePdf :
    isSupportedMimeType "application/pdf" = true ∧
    buildParts (fun _ => "CONTENT")
      (.file ⟨"invoice.txt", "application/pdf", 3, [1, 2, 3]⟩) =
      [.text "Analyze this text content for plagiarism and piracy risks:\n\nCONTENT"] :=
  ⟨rfl, rfl⟩

/-- C5 (amended): for every file asset with a supported binary MIME type
(`application/pdf`, `image/*` or `video/*`) that is not first classified
text-like (MIME `text/*`, or name ending in `.txt`, `.md`, `.csv` or
`.json`), the normalizer produces exactly two parts: one binary part
carrying the file's original MIME type and the base64 encoding of the file's
bytes, and one text instruction part. -/
theorem C5_supportedBinaryTwoParts (readText : List Nat → String) (f : FileAsset)
    (hsupp : isSupportedMimeType f.type = true)
    (htext : (strStartsWith f.type "text/" || strEndsWith f.name ".txt" ||
      strEndsWith f.name ".md" || strEndsWith f.name ".csv" ||
      strEndsWith f.name ".json") = false) :
    buildParts readText (.file f) =
      [.inlineData f.type (fileToBase64 f),
       .text ("Analyze this " ++ f.type ++
         " asset and generate a forensic piracy report based on simulated reverse search and metadata analysis.")] := by
  simp [buildParts, htext, hsupp]

/-- C5 witness: a 3-byte PNG, whose bytes 77/97/110 encode to "TWFu". -/
theorem C5_supportedBinaryTwoParts_witness :
    buildParts (fun _ => "") (.file ⟨"a.png", "image/png", 3, [77, 97, 110]⟩) =
      [.inlineData "image/png" "TWFu",
       .text "Analyze this image/png asset and generate a forensic piracy report based on simulated reverse search and metadata analysis."] :=
  C5_supportedBinaryTwoParts (fun _ => "") ⟨"a.png", "image/png", 3, [77, 97, 110]⟩
    rfl rfl

/-- C6: for every file asset that is neither text-like (MIME `text/*` or
extension txt/md/csv/json) nor a supported binary (PDF, `image/*`,
`video/*`), the normalizer produces exactly one text part containing the
file's literal name, byte size and declared MIME type, and never reads the
file's content: the payload is unchanged when the content bytes and the text
reader are replaced arbitrarily. -/
theorem C6_unsupportedMetadataOnly (readText readText' : List Nat → String)
    (f : FileAsset) (c' : List Nat)
    (htext : (strStartsWith f.type "text/" || strEndsWith f.name ".txt" ||
      strEndsWith f.name ".md" || strEndsWith f.name ".csv" ||
      strEndsWith f.name ".json") = false)
    (hsupp : isSupportedMimeType f.type = false) :
    buildParts readText (.file f) =
      [.text ("Perform a simulated forensic analysis on this file.\n\nFile Name: " ++
        f.name ++ "\nFile Size: " ++ toString f.size ++ " bytes\nFile Type: " ++
        f.type ++
        "\n\nSince direct content analysis is not available for this file type via the current interface, simulate findings based on the metadata and common piracy patterns associated with this file format.")] ∧
    buildParts readText (.file f) =
      buildParts readText' (.file { f with content := c' }) := by
  constructor
  · simp [buildParts, htext, hsupp]
  · simp [buildParts, htext, hsupp]

/-- C6 witness: a .docx file; the payload is the metadata text part and is
unchanged under different content bytes and a different reader. -/
theorem C6_unsupportedMetadataOnly_witness :
    buildParts (fun _ => "A") (.file ⟨"a.docx", "application/msword", 5, [1, 2]⟩) =
      [.text ("Perform a simulated forensic analysis on this file.\n\nFile Name: " ++
        "a.docx" ++ "\nFile Size: " ++ toString (5 : Nat) ++ " bytes\nFile Type: " ++
        "application/msword" ++
        "\n\nSince direct content analysis is not available for this file type via the current interface, simulate findings based on the metadata and common piracy patterns associated with this file format.")] ∧
    buildParts (fun _ => "A") (.file ⟨"a.docx", "application/msword", 5, [1, 2]⟩) =
      buildParts (fun _ => "B") (.file ⟨"a.docx", "application/msword", 5, [9]⟩) :=
  C6_unsupportedMetadataOnly (fun _ => "A") (fun _ => "B")
    ⟨"a.docx", "application/msword", 5, [1, 2]⟩ [9] rfl rfl

/-- C7: a file larger than 50 MiB is rejected on selection: it is never
stored as the current asset and the controller state is entirely unchanged
(in particular no transition out of `IDLE`); moreover, with no accepted file
in file mode, `startScan` does nothing, so no request is ever issued for the
rejected file. -/
theorem C7_oversizeRejected (m : Model) (f : FileAsset) (rest : List FileAsset)
    (hsize : f.size > 50 * 1024 * 1024) :
    handleFileChange m (f :: rest) = m ∧
    (m.inputMode = .file → m.file = none → startScan m = m) := by
  constructor
  · simp [handleFileChange, hsize]
  · intro hmode hfile
    simp [startScan, hmode, hfile]

/-- C7 witness: a 50 MiB + 1 byte file on the initial state. -/
theorem C7_oversizeRejected_witness :
    handleFileChange initModel [⟨"big.bin", "application/octet-stream", 52428801, []⟩] =
      initModel ∧
    startScan initModel = initModel :=
  ⟨(C7_oversizeRejected initModel ⟨"big.bin", "application/octet-stream", 52428801, []⟩
      [] (by norm_num)).1,
   (C7_oversizeRejected initModel ⟨"big.bin", "application/octet-stream", 52428801, []⟩
      [] (by norm_num)).2 rfl rfl⟩

/-- C8 counterexample: after a reset during `SCANNING`, the in-flight
request's late outcome is not discarded: a late failure moves the state to
`ERROR` and records the error message, and a late success fills the report
slot — contradicting the claim that the state remains `IDLE` and the cleared
slots stay cleared. -/
theorem C8_cex_lateOutcome :
    (run initModel [.fileChange [⟨"a.png", "image/png", 3, [77]⟩], .startScan,
      .reset, .scanReject]).appState = .ERROR ∧
    (run initModel [.fileChange [⟨"a.png", "image/png", 3, [77]⟩], .startScan,
      .reset, .scanReject]).error =
      some "Failed to generate report. Please try again." ∧
    (run initModel [.fileChange [⟨"a.png", "image/png", 3, [77]⟩], .startScan,
      .reset, .scanResolve (.str "late")]).report = some (.str "late") :=
  ⟨rfl, rfl, rfl⟩

/-- C8 (amended): a reset while a request is in flight does not cancel it,
and its late outcome is applied, not discarded: from the post-reset `IDLE`
state, a late failure records the fixed error message and moves the state to
`ERROR`, while a late success stores the report in the report slot (the
state itself stays `IDLE`, since only the animation signal promotes it). -/
theorem C8_lateOutcomeApplied (m : Model) (r : Json)
    (hidle : m.appState = .IDLE) :
    (scanReject m).appState = .ERROR ∧
    (scanReject m).error = some "Failed to generate report. Please try again." ∧
    (scanResolve m r).appState = .IDLE ∧
    (scanResolve m r).report = some r := by
  refine ⟨rfl, rfl, ?_, rfl⟩
  simp [scanResolve, hidle]

/-- C8 witness: the concrete post-reset state. -/
theorem C8_lateOutcomeApplied_witness :
    (scanReject (resetApp initModel)).appState = .ERROR ∧
    (scanReject (resetApp initModel)).error =
      some "Failed to generate report. Please try again." ∧
    (scanResolve (resetApp initModel) (.str "late")).appState = .IDLE ∧
    (scanResolve (resetApp initModel) (.str "late")).report = some (.str "late") :=
  C8_lateOutcomeApplied (resetApp initModel) (.str "late") rfl

/-- Looking up a key that is not among an association list's keys yields
nothing. -/
theorem lookupField_eq_none_of_not_mem {k : String}
    {kvs : List (String × Json)} (h : k ∉ kvs.map Prod.fst) :
    lookupField k kvs = none := by
  induction kvs with
  | nil => rfl
  | cons p rest ih =>
      obtain ⟨k', v⟩ := p
      simp only [List.map_cons, List.mem_cons, not_or] at h
      obtain ⟨hne, hrest⟩ := h
      have hbeq : (k' == k) = false :=
        beq_eq_false_iff_ne.mpr fun hh => hne hh.symm
      simp [lookupField, hbeq, ih hrest]

/-- C9 counterexample: a response carrying exactly the five schema-required
fields parses (via `JSON.parse` plus the no-op cast) into a report whose
`key_evidence` is `undefined` — not an empty collection — and a response
missing `case_id` still parses into a report, with `case_id` absent: the
code performs no local validation or defaulting. -/
theorem C9_cex_noDefaulting :
    (asForensicReport (Json.obj
      [("case_id", .str "CASE-1"),
       ("verdict", .str "INCONCLUSIVE – MORE DATA NEEDED"),
       ("confidence_score", .num 50),
       ("summary", .str "a summary"),
       ("risk_level", .str "LOW")])).key_evidence = none ∧
    (asForensicReport (Json.obj
      [("case_id", .str "CASE-1"),
       ("verdict", .str "INCONCLUSIVE – MORE DATA NEEDED"),
       ("confidence_score", .num 50),
       ("summary", .str "a summary"),
       ("risk_level", .str "LOW")])).key_evidence ≠ some (Json.arr []) ∧
    (asForensicReport (Json.obj [("summary", .str "s")])).case_id = none := by
  refine ⟨?_, ?_, ?_⟩ <;> simp [asForensicReport, jGet, lookupField]

/-- C9 (amended): parsing applies no local validation or defaulting — every
field of the report is the response's property verbatim; each of the
optional collection fields is `undefined` (not an empty collection) when
absent from the response, the nominally required `case_id` can likewise be
absent, and required-field presence is only requested of the remote model
via the response schema, which marks exactly `case_id`, `verdict`,
`confidence_score`, `summary` and `risk_level` required. -/
theorem C9_absentFieldsStayAbsent (kvs : List (String × Json))
    (hke : "key_evidence" ∉ kvs.map Prod.fst)
    (hsu : "suspicious_urls" ∉ kvs.map Prod.fst)
    (hpo : "probable_original_sources" ∉ kvs.map Prod.fst)
    (hdg : "data_gaps" ∉ kvs.map Prod.fst)
    (hra : "recommended_actions" ∉ kvs.map Prod.fst)
    (hes : "engine_scores" ∉ kvs.map Prod.fst)
    (hci : "case_id" ∉ kvs.map Prod.fst) :
    (asForensicReport (Json.obj kvs)).key_evidence = none ∧
    (asForensicReport (Json.obj kvs)).suspicious_urls = none ∧
    (asForensicReport (Json.obj kvs)).probable_original_sources = none ∧
    (asForensicReport (Json.obj kvs)).data_gaps = none ∧
    (asForensicReport (Json.obj kvs)).recommended_actions = none ∧
    (asForensicReport (Json.obj kvs)).engine_scores = none ∧
    (asForensicReport (Json.obj kvs)).case_id = none ∧
    reportSchema.required =
      ["case_id", "verdict", "confidence_score", "summary", "risk_level"] := by
  refine ⟨?_, ?_, ?_, ?_, ?_, ?_, ?_, rfl⟩ <;>
    simp [asForensicReport, jGet,
      lookupField_eq_none_of_not_mem hke, lookupField_eq_none_of_not_mem hsu,
      lookupField_eq_none_of_not_mem hpo, lookupField_eq_none_of_not_mem hdg,
      lookupField_eq_none_of_not_mem hra, lookupField_eq_none_of_not_mem hes,
      lookupField_eq_none_of_not_mem hci]

/-- C9 witness: a response with only a summary; every listed field of the
parsed report is absent. -/
theorem C9_absentFieldsStayAbsent_witness :
    (asForensicReport (Json.obj [("summary", .str "s")])).key_evidence = none ∧
    (asForensicReport (Json.obj [("summary", .str "s")])).suspicious_urls = none ∧
    (asForensicReport (Json.obj [("summary", .str "s")])).probable_original_sources = none ∧
    (asForensicReport (Json.obj [("summary", .str "s")])).data_gaps = none ∧
    (asForensicReport (Json.obj [("summary", .str "s")])).recommended_actions = none ∧
    (asForensicReport (Json.obj [("summary", .str "s")])).engine_scores = none ∧
    (asForensicReport (Json.obj [("summary", .str "s")])).case_id = none ∧
    reportSchema.required =
      ["case_id", "verdict", "confidence_score", "summary", "risk_level"] :=
  C9_absentFieldsStayAbsent [("summary", .str "s")] (by simp) (by simp) (by simp)
    (by simp) (by simp) (by simp) (by simp)

/-- C10: in every state reachable from the initial state, `REPORT_READY`
implies a stored (non-null) report; and the animation-complete signal is a
no-op on any reachable state whose report slot is still empty. -/
theorem C10_reportReadyInvariant (evs : List Ev) :
    ((run initModel evs).appState = .REPORT_READY →
      (run initModel evs).report ≠ none) ∧
    ((run initModel evs).report = none →
      onScanComplete (run initModel evs) = run initModel evs) := by
  have hstep : ∀ (m : Model) (e : Ev),
      (m.appState = .REPORT_READY → m.report ≠ none) →
      ((step m e).appState = .REPORT_READY → (step m e).report ≠ none) := by
    intro m e hm
    cases e with
    | fileChange files =>
        cases files with
        | nil => exact hm
        | cons f rest =>
            by_cases hs : f.size > 50 * 1024 * 1024 <;>
              simp [step, handleFileChange, hs] <;> exact hm
    | urlChange s => exact hm
    | modeChange mode => intro h; simp [step, setMode] at h ⊢; exact hm h
    | startScan =>
        intro h
        cases hmode : m.inputMode with
        | url =>
            by_cases hu : m.urlInput == ""
            · simp [step, startScan, hmode, hu] at h ⊢; exact hm h
            · simp [step, startScan, hmode, hu] at h
        | file =>
            cases hf : m.file with
            | none => simp [step, startScan, hmode, hf] at h ⊢; exact hm h
            | some f => simp [step, startScan, hmode, hf] at h
    | scanResolve r => intro _; simp [step, scanResolve]
    | scanReject => intro h; simp [step, scanReject] at h
    | animationComplete =>
        intro h
        by_cases hr : m.report.isSome
        · simp [step, onScanComplete, hr]
          intro hnone
          rw [hnone] at hr
          simp at hr
        · simp [step, onScanComplete, hr] at h ⊢; exact hm h
    | reset => intro h; simp [step, resetApp] at h
  have hinv : ∀ (m : Model) (l : List Ev),
      (m.appState = .REPORT_READY → m.report ≠ none) →
      ((run m l).appState = .REPORT_READY → (run m l).report ≠ none) := by
    intro m l
    induction l generalizing m with
    | nil => intro hm; exact hm
    | cons e rest ih => intro hm; exact ih (step m e) (hstep m e hm)
  refine ⟨hinv initModel evs (by intro h; simp [initModel] at h), ?_⟩
  intro hnone
  simp [onScanComplete, hnone]

/-- C10 witness: a run reaching `REPORT_READY` has a stored report, and the
animation signal leaves the initial (reportless) state unchanged. -/
theorem C10_reportReadyInvariant_witness :
    ((run initModel [.fileChange [⟨"a.png", "image/png", 3, [77]⟩], .startScan,
      .scanResolve (.str "rep"), .animationComplete]).report ≠ none) ∧
    (onScanComplete (run initModel []) = run initModel []) :=
  ⟨(C10_reportReadyInvariant [.fileChange [⟨"a.png", "image/png", 3, [77]⟩],
      .startScan, .scanResolve (.str "rep"), .animationComplete]).1 rfl,
   (C10_reportReadyInvariant []).2 rfl⟩

end Decryptc
